import Mathlib

/-!
Shallow embedding of the `todo-rs` service (src/todo-rs): record model
(`models.rs`), the five request handlers (`handlers.rs`), the route table and
startup sequence (`main.rs`).  The database table is modelled as a list of
rows plus the serial counter that assigns ids; diesel query errors and pool
acquisition errors are injected through a `DbFailure` flag pair, and the
Rust `unwrap` on an `Err` is modelled as an `Except.error` carrying the
status value the handler had mapped the error to (in Rust this is a panic,
so no HTTP response is built by handler code).
-/

/-- `Todo` from models.rs: `id: i32`, `title: String`, `content: String`. -/
structure Todo where
  id : Int
  title : String
  content : String
deriving Repr, DecidableEq

/-- `NewTodo` from models.rs: insert shape, no id. -/
structure NewTodo where
  title : String
  content : String
deriving Repr, DecidableEq

/-- `UpdateTodo` from models.rs: changeset shape, title and content only. -/
structure UpdateTodo where
  title : String
  content : String
deriving Repr, DecidableEq

/-- The `todos` table: stored rows plus the serial counter the storage engine
uses to assign the next id (Postgres `SERIAL` primary key). -/
structure Db where
  rows : List Todo
  nextId : Int
deriving Repr, DecidableEq

/-- `diesel::insert_into(todos::table).values(&new_todo).get_result(..)`:
single-row insert returning the newly assigned record. -/
def Db.insertReturning (db : Db) (n : NewTodo) : Todo × Db :=
  let t : Todo := ⟨db.nextId, n.title, n.content⟩
  (t, ⟨db.rows ++ [t], db.nextId + 1⟩)

/-- `todos::table.load::<Todo>(..)`: unfiltered full-table read. -/
def Db.selectAll (db : Db) : List Todo :=
  db.rows

/-- `todos::table.filter(id.eq(todo_id)).first::<Todo>(..)`: filtered read,
`none` models diesel returning `Err(NotFound)` when zero rows match. -/
def Db.selectById (db : Db) (i : Int) : Option Todo :=
  (db.rows.filter (fun t => t.id == i)).head?

/-- The row transformation of `diesel::update(todos.filter(id.eq(todo_id)))
.set(&update_todo)`: every matching row has title and content replaced. -/
def updateRow (i : Int) (u : UpdateTodo) (t : Todo) : Todo :=
  if t.id == i then ⟨t.id, u.title, u.content⟩ else t

/-- The table after the filtered update statement; the serial counter is
untouched by `UPDATE`. -/
def Db.updateRows (db : Db) (i : Int) (u : UpdateTodo) : Db :=
  ⟨db.rows.map (updateRow i u), db.nextId⟩

/-- `diesel::delete(todos::table.filter(id.eq(todo_id))).execute(..)`:
filtered delete returning the affected-row count. -/
def Db.deleteById (db : Db) (i : Int) : Nat × Db :=
  let kept := db.rows.filter (fun t => t.id != i)
  (db.rows.length - kept.length, ⟨kept, db.nextId⟩)

/-- HTTP status codes the handlers mention (`axum::http::StatusCode`). -/
inductive Status where
  | OK
  | CREATED
  | NO_CONTENT
  | INTERNAL_SERVER_ERROR
deriving Repr, DecidableEq

/-- Numeric value of each status code. -/
def Status.toNat : Status → Nat
  | .OK => 200
  | .CREATED => 201
  | .NO_CONTENT => 204
  | .INTERNAL_SERVER_ERROR => 500

/-- A Rust panic raised by `unwrap()` on an `Err`; the payload is the
`StatusCode` the preceding `map_err` had produced, which `unwrap` formats
into the panic message instead of returning it to the caller. -/
inductive Panic where
  | panicked (s : Status)
deriving Repr, DecidableEq

/-- Failure injection for a request: `connErr` models `db.get()` failing
(pool exhaustion or dead connection), `queryErr` models the diesel statement
failing at execution time (beyond the zero-rows case, which the `Db`
operations themselves expose as `none`). -/
structure DbFailure where
  connErr : Bool
  queryErr : Bool
deriving Repr, DecidableEq

/-- The failure-free request environment. -/
def dbNoFail : DbFailure := ⟨false, false⟩

/-- `create_todo` from handlers.rs: acquire a connection (unwrap), run the
insert returning the new row (unwrap), answer `(CREATED, Json(todo))`. -/
def create_todo (fail : DbFailure) (db : Db) (new_todo : NewTodo) :
    Except Panic (Status × Todo × Db) :=
  if fail.connErr then .error (.panicked .INTERNAL_SERVER_ERROR)
  else if fail.queryErr then .error (.panicked .INTERNAL_SERVER_ERROR)
  else
    let p := db.insertReturning new_todo
    .ok (.CREATED, p.1, p.2)

/-- `get_todos` from handlers.rs: acquire a connection (unwrap), load the
whole table (unwrap), answer `(OK, Json(results))`. -/
def get_todos (fail : DbFailure) (db : Db) :
    Except Panic (Status × List Todo) :=
  if fail.connErr then .error (.panicked .INTERNAL_SERVER_ERROR)
  else if fail.queryErr then .error (.panicked .INTERNAL_SERVER_ERROR)
  else .ok (.OK, db.selectAll)

/-- `get_todo` from handlers.rs: acquire a connection (unwrap), filtered
`first` (unwrap, so zero rows is a panic), answer `(OK, Json(result))`. -/
def get_todo (fail : DbFailure) (db : Db) (todo_id : Int) :
    Except Panic (Status × Todo) :=
  if fail.connErr then .error (.panicked .INTERNAL_SERVER_ERROR)
  else if fail.queryErr then .error (.panicked .INTERNAL_SERVER_ERROR)
  else
    match db.selectById todo_id with
    | none => .error (.panicked .INTERNAL_SERVER_ERROR)
    | some t => .ok (.OK, t)

/-- `update_todo` from handlers.rs: acquire a connection (unwrap), filtered
update with `get_result` (unwrap, so zero rows updated is a panic), answer
`(OK, Json(todo))` with the returned updated row. -/
def update_todo (fail : DbFailure) (db : Db) (todo_id : Int)
    (u : UpdateTodo) : Except Panic (Status × Todo × Db) :=
  if fail.connErr then .error (.panicked .INTERNAL_SERVER_ERROR)
  else if fail.queryErr then .error (.panicked .INTERNAL_SERVER_ERROR)
  else
    let db' := db.updateRows todo_id u
    match db'.selectById todo_id with
    | none => .error (.panicked .INTERNAL_SERVER_ERROR)
    | some t => .ok (.OK, t, db')

/-- `delete_todo` from handlers.rs: acquire a connection (unwrap), filtered
delete (unwrap), affected-row count bound to `_` and discarded, answer
`NO_CONTENT`. -/
def delete_todo (fail : DbFailure) (db : Db) (todo_id : Int) :
    Except Panic (Status × Db) :=
  if fail.connErr then .error (.panicked .INTERNAL_SERVER_ERROR)
  else if fail.queryErr then .error (.panicked .INTERNAL_SERVER_ERROR)
  else
    let p := db.deleteById todo_id
    .ok (.NO_CONTENT, p.2)

/-- HTTP methods relevant to the route table. -/
inductive Method where
  | GET
  | POST
  | PUT
  | PATCH
  | DELETE
deriving Repr, DecidableEq

/-- Request paths the router patterns can match: `/todos` and `/todos/{id}`
with the id segment parsed as `i32`. -/
inductive ReqPath where
  | todos
  | todosId (i : Int)
deriving Repr, DecidableEq

/-- The five data-access operations the routes dispatch to. -/
inductive Op where
  | create
  | listAll
  | getById
  | updateOp
  | deleteOp
deriving Repr, DecidableEq

/-- The route table from main.rs: `/todos` POST -> create, `/todos` GET ->
list, `/todos/{id}` GET -> get, `/todos/{id}` POST -> update, `/todos/{id}`
DELETE -> delete; no other pair is registered. -/
def routerLookup : Method → ReqPath → Option Op
  | .POST, .todos => some .create
  | .GET, .todos => some .listAll
  | .GET, .todosId _ => some .getById
  | .POST, .todosId _ => some .updateOp
  | .DELETE, .todosId _ => some .deleteOp
  | _, _ => none

/-- `r2d2::Pool::builder().max_size(5)` from main.rs. -/
def poolMaxSize : Nat := 5

/-- The application value `main` builds on successful startup: the pool
configuration and the registered route table. -/
structure App where
  poolSize : Nat
  databaseUrl : String
  routes : Method → ReqPath → Option Op

/-- Startup sequence of `main`: read `DATABASE_URL` from the environment and
abort with the `expect` diagnostic when absent; only then build the pool
(`buildPool`, abstract here, so the abort provably precedes it) and register
the routes. -/
def mainStartup (env : String → Option String)
    (buildPool : String → Except String Nat) : Except String App :=
  match env "DATABASE_URL" with
  | none => .error "DATABASE_URL must be set"
  | some url =>
    match buildPool url with
    | .error e => .error e
    | .ok size => .ok ⟨size, url, routerLookup⟩

/-- Modelled from the spec: the r2d2 pool implementation is not part of
src/. Per the spec the pool hands out a connection to a caller and reclaims
it when the caller is done, bounding concurrent physical connections at the
configured maximum; on exhaustion callers block until a connection frees, so
no acquire succeeds while the full complement is lent out. -/
inductive PoolEvent where
  | acquire
  | release
deriving Repr, DecidableEq

/-- Modelled from the spec: number of lent-out connections after one pool
event; an acquire at capacity blocks (no connection is handed out), a
release returns one. -/
def poolStep (maxSize : Nat) (lent : Nat) : PoolEvent → Nat
  | .acquire => if lent < maxSize then lent + 1 else lent
  | .release => lent - 1

/-- Modelled from the spec: lent-out connection count after a trace of
acquire/release events, starting from the freshly built pool (none lent). -/
def poolRun (maxSize : Nat) (events : List PoolEvent) : Nat :=
  events.foldl (poolStep maxSize) 0

/-- Well-formed table state: every stored id was assigned by a past value of
the serial counter (so is below the current one), and stored ids are
pairwise distinct (primary key). -/
def Db.Wf (db : Db) : Prop :=
  (∀ t ∈ db.rows, t.id < db.nextId) ∧ (db.rows.map Todo.id).Nodup

/-- `create_todo` iterated over a list of inputs, threading the table state;
returns the created records in order together with the final state. -/
def createMany : Db → List NewTodo → List Todo × Db
  | db, [] => ([], db)
  | db, n :: ns =>
    let p := db.insertReturning n
    let q := createMany p.2 ns
    (p.1 :: q.1, q.2)

/-- Appending a row whose id is fresh for the table makes the filtered read
on that id return exactly the appended row. -/
lemma selectById_append_fresh (r : List Todo) (t : Todo) (k : Int)
    (h : ∀ x ∈ r, x.id ≠ t.id) :
    Db.selectById ⟨r ++ [t], k⟩ t.id = some t := by
  induction r with
  | nil => simp [Db.selectById]
  | cons x r ih =>
    have hx : (x.id == t.id) = false := by
      simp [h x (List.mem_cons_self x r)]
    have ih2 := ih (fun y hy => h y (List.mem_cons_of_mem x hy))
    simp only [Db.selectById, List.cons_append, List.filter_cons, hx,
      Bool.false_eq_true, if_false] at ih2 ⊢
    exact ih2

/-- C1: for every well-formed table and every NewTodo, Create succeeds with
201 and a record carrying the input's title and content and the id assigned
by the serial counter, and GetById on that id returns exactly that record. -/
theorem roundtrip_create_getById (db : Db) (n : NewTodo) (hwf : db.Wf) :
    ∃ t db2,
      create_todo dbNoFail db n = .ok (.CREATED, t, db2) ∧
      get_todo dbNoFail db2 t.id = .ok (.OK, t) ∧
      t.title = n.title ∧ t.content = n.content ∧ t.id = db.nextId := by
  refine ⟨⟨db.nextId, n.title, n.content⟩,
    ⟨db.rows ++ [⟨db.nextId, n.title, n.content⟩], db.nextId + 1⟩,
    ?_, ?_, rfl, rfl, rfl⟩
  · rfl
  have hsel := selectById_append_fresh db.rows ⟨db.nextId, n.title, n.content⟩
    (db.nextId + 1) (fun x hx => Int.ne_of_lt (hwf.1 x hx))
  simp [get_todo, dbNoFail, hsel]

/-- Witness for C1 at the empty table. -/
theorem roundtrip_create_getById_witness :
    Db.Wf ⟨[], 1⟩ ∧
    ∃ t db2,
      create_todo dbNoFail ⟨[], 1⟩ ⟨"a", "b"⟩ = .ok (.CREATED, t, db2) ∧
      get_todo dbNoFail db2 t.id = .ok (.OK, t) ∧
      t.title = "a" ∧ t.content = "b" ∧ t.id = (1 : Int) := by
  have hwf : Db.Wf ⟨[], 1⟩ := ⟨by simp, by simp⟩
  exact ⟨hwf, roundtrip_create_getById ⟨[], 1⟩ ⟨"a", "b"⟩ hwf⟩

/-- C2: evaluating the handlers at failing inputs shows no 500 response is
built: a GetById on an id with zero matching rows, and a GetById under pool
acquisition failure, both end in the unwrap panic carrying the mapped
INTERNAL_SERVER_ERROR value instead of returning any response. -/
theorem getById_zero_rows_panics :
    get_todo dbNoFail ⟨[], 1⟩ 1 = .error (.panicked .INTERNAL_SERVER_ERROR) ∧
    get_todo ⟨true, false⟩ ⟨[⟨1, "a", "b"⟩], 2⟩ 1 =
      .error (.panicked .INTERNAL_SERVER_ERROR) ∧
    (get_todo dbNoFail ⟨[], 1⟩ 1).isOk = false :=
  ⟨rfl, rfl, rfl⟩

/-- C4: Delete always succeeds with NO_CONTENT, whether or not any stored
row matches the id, because the affected-row count returned by the filtered
delete is discarded; the resulting table keeps exactly the non-matching
rows. -/
theorem delete_always_noContent (db : Db) (i : Int) :
    ∃ db2, delete_todo dbNoFail db i = .ok (.NO_CONTENT, db2) ∧
      db2.rows = db.rows.filter (fun t => t.id != i) :=
  ⟨_, rfl, rfl⟩

/-- C7: when the environment lacks DATABASE_URL, startup aborts with the
expect diagnostic, for every possible pool builder — so the abort happens
before the pool is built and before any routes exist. -/
theorem missing_database_url_fatal (env : String → Option String)
    (h : env "DATABASE_URL" = none) :
    ∀ buildPool, mainStartup env buildPool = .error "DATABASE_URL must be set" := by
  intro bp
  simp [mainStartup, h]

/-- Witness for C7 at the empty environment. -/
theorem missing_database_url_fatal_witness :
    ((fun _ => none) : String → Option String) "DATABASE_URL" = none ∧
    mainStartup (fun _ => none) (fun _ => .ok poolMaxSize) =
      .error "DATABASE_URL must be set" :=
  ⟨rfl, missing_database_url_fatal (fun _ => none) rfl (fun _ => .ok poolMaxSize)⟩

/-- Any pool-event trace started below the bound stays below the bound. -/
lemma poolFold_le (m : Nat) (events : List PoolEvent) :
    ∀ s : Nat, s ≤ m → events.foldl (poolStep m) s ≤ m := by
  induction events with
  | nil => intro s hs; simpa using hs
  | cons e es ih =>
    intro s hs
    have hstep : poolStep m s e ≤ m := by
      cases e with
      | acquire => simp only [poolStep]; split <;> omega
      | release => simp only [poolStep]; omega
    exact ih (poolStep m s e) hstep

/-- C8: with the pool built at max_size 5 as in main.rs, the number of
lent-out connections never exceeds 5 along any trace of acquire/release
events from any set of concurrent callers. -/
theorem pool_bounds_connections (events : List PoolEvent) :
    poolRun poolMaxSize events ≤ poolMaxSize ∧ poolMaxSize = 5 :=
  ⟨poolFold_le poolMaxSize events 0 (Nat.zero_le _), rfl⟩

/-- After the filtered update, the filtered read on the same id returns the
row with the replacement title and content, provided some row matched. -/
lemma selectById_updateRows_exists (rows : List Todo) (i : Int)
    (u : UpdateTodo) (h : ∃ t ∈ rows, t.id = i) :
    ((rows.map (updateRow i u)).filter (fun t => t.id == i)).head? =
      some ⟨i, u.title, u.content⟩ := by
  induction rows with
  | nil => simp at h
  | cons x r ih =>
    by_cases hx : x.id = i
    · simp [updateRow, hx, List.filter_cons]
    · have hupd : updateRow i u x = x := by simp [updateRow, hx]
      have hpx : (x.id == i) = false := by simp [hx]
      obtain ⟨t, ht, hti⟩ := h
      rcases List.mem_cons.mp ht with rfl | htr
      · exact absurd hti hx
      · rw [List.map_cons, hupd, List.filter_cons, hpx,
          if_neg Bool.false_ne_true]
        exact ih ⟨t, htr, hti⟩

/-- C3: whenever a row with the given id exists, Update succeeds with 200
and the record {id, new title, new content}, and a subsequent GetById on the
same id returns exactly that record, whatever the prior field values. -/
theorem update_then_getById (db : Db) (i : Int) (u : UpdateTodo)
    (h : ∃ t ∈ db.rows, t.id = i) :
    update_todo dbNoFail db i u =
      .ok (.OK, ⟨i, u.title, u.content⟩, db.updateRows i u) ∧
    get_todo dbNoFail (db.updateRows i u) i =
      .ok (.OK, ⟨i, u.title, u.content⟩) := by
  have hsel : (db.updateRows i u).selectById i = some ⟨i, u.title, u.content⟩ := by
    simpa [Db.updateRows, Db.selectById] using
      selectById_updateRows_exists db.rows i u h
  constructor
  · simp [update_todo, dbNoFail, hsel]
  · simp [get_todo, dbNoFail, hsel]

/-- Witness for C3 at a one-row table with prior values "x"/"y". -/
theorem update_then_getById_witness :
    (∃ t ∈ [(⟨1, "x", "y"⟩ : Todo)], t.id = 1) ∧
    update_todo dbNoFail ⟨[⟨1, "x", "y"⟩], 2⟩ 1 ⟨"A", "B"⟩ =
      .ok (.OK, ⟨1, "A", "B"⟩, Db.updateRows ⟨[⟨1, "x", "y"⟩], 2⟩ 1 ⟨"A", "B"⟩) ∧
    get_todo dbNoFail (Db.updateRows ⟨[⟨1, "x", "y"⟩], 2⟩ 1 ⟨"A", "B"⟩) 1 =
      .ok (.OK, ⟨1, "A", "B"⟩) := by
  have h : ∃ t ∈ [(⟨1, "x", "y"⟩ : Todo)], t.id = 1 := ⟨⟨1, "x", "y"⟩, by simp, rfl⟩
  exact ⟨h, update_then_getById ⟨[⟨1, "x", "y"⟩], 2⟩ 1 ⟨"A", "B"⟩ h⟩

/-- The update row transformation never changes a row's id. -/
lemma updateRow_id (i : Int) (u : UpdateTodo) (t : Todo) :
    (updateRow i u t).id = t.id := by
  by_cases hid : t.id = i <;> simp [updateRow, hid]

/-- The update row transformation leaves non-matching rows unmodified. -/
lemma updateRow_ne (i : Int) (u : UpdateTodo) (t : Todo) (h : t.id ≠ i) :
    updateRow i u t = t := by
  simp [updateRow, h]

/-- C5: a successful Update leaves the serial counter and the number of rows
unchanged, preserves every row's id positionally, and leaves every row whose
id differs from the target completely unmodified. -/
theorem update_frame (db : Db) (i : Int) (u : UpdateTodo) (st : Status)
    (t : Todo) (db2 : Db)
    (h : update_todo dbNoFail db i u = .ok (st, t, db2)) :
    db2.nextId = db.nextId ∧
    db2.rows.length = db.rows.length ∧
    ∀ j (hj : j < db.rows.length) (hj2 : j < db2.rows.length),
      (db2.rows.get ⟨j, hj2⟩).id = (db.rows.get ⟨j, hj⟩).id ∧
      ((db.rows.get ⟨j, hj⟩).id ≠ i →
        db2.rows.get ⟨j, hj2⟩ = db.rows.get ⟨j, hj⟩) := by
  have hdb2 : db2 = db.updateRows i u := by
    cases hsel : (db.updateRows i u).selectById i with
    | none => simp [update_todo, dbNoFail, hsel] at h
    | some t2 =>
      simp [update_todo, dbNoFail, hsel] at h
      exact h.2.2.symm
  subst hdb2
  refine ⟨rfl, by simp [Db.updateRows], ?_⟩
  intro j hj hj2
  have hget : (Db.updateRows db i u).rows.get ⟨j, hj2⟩ =
      updateRow i u (db.rows.get ⟨j, hj⟩) := by
    simp [Db.updateRows, List.get_eq_getElem]
  constructor
  · rw [hget, updateRow_id]
  · intro hne
    rw [hget, updateRow_ne i u _ hne]

/-- Witness for C5 at a two-row table, updating id 1. -/
theorem update_frame_witness :
    update_todo dbNoFail ⟨[⟨1, "x", "y"⟩, ⟨2, "p", "q"⟩], 3⟩ 1 ⟨"A", "B"⟩ =
      .ok (.OK, ⟨1, "A", "B"⟩, ⟨[⟨1, "A", "B"⟩, ⟨2, "p", "q"⟩], 3⟩) ∧
    Db.nextId ⟨[⟨1, "A", "B"⟩, ⟨2, "p", "q"⟩], 3⟩ =
      Db.nextId ⟨[⟨1, "x", "y"⟩, ⟨2, "p", "q"⟩], 3⟩ :=
  ⟨rfl, (update_frame ⟨[⟨1, "x", "y"⟩, ⟨2, "p", "q"⟩], 3⟩ 1 ⟨"A", "B"⟩
    .OK ⟨1, "A", "B"⟩ ⟨[⟨1, "A", "B"⟩, ⟨2, "p", "q"⟩], 3⟩ rfl).1⟩

/-- C6: the route table maps (POST, /todos/{id}) to Update while PUT and
PATCH on that path are unregistered; successful Update answers 200 with the
updated record as body (the body re-reads as the stored row), successful
Create on (POST, /todos) answers 201, and successful Delete on
(DELETE, /todos/{id}) answers 204. -/
theorem router_update_on_post :
    (∀ i : Int, routerLookup .POST (.todosId i) = some .updateOp) ∧
    (∀ i : Int, routerLookup .PUT (.todosId i) = none) ∧
    (∀ i : Int, routerLookup .PATCH (.todosId i) = none) ∧
    routerLookup .POST .todos = some .create ∧
    (∀ i : Int, routerLookup .DELETE (.todosId i) = some .deleteOp) ∧
    (∀ db i u st t db2, update_todo dbNoFail db i u = .ok (st, t, db2) →
      st = .OK ∧ db2.selectById i = some t) ∧
    (∀ db n st t db2, create_todo dbNoFail db n = .ok (st, t, db2) →
      st = .CREATED) ∧
    (∀ db i st db2, delete_todo dbNoFail db i = .ok (st, db2) →
      st = .NO_CONTENT) := by
  refine ⟨fun _ => rfl, fun _ => rfl, fun _ => rfl, rfl, fun _ => rfl,
    ?_, ?_, ?_⟩
  · intro db i u st t db2 h
    cases hsel : (db.updateRows i u).selectById i with
    | none => simp [update_todo, dbNoFail, hsel] at h
    | some t2 =>
      simp [update_todo, dbNoFail, hsel] at h
      obtain ⟨h1, h2, h3⟩ := h
      refine ⟨h1.symm, ?_⟩
      rw [← h3, ← h2]
      exact hsel
  · intro db n st t db2 h
    simp [create_todo, dbNoFail] at h
    exact h.1.symm
  · intro db i st db2 h
    simp [delete_todo, dbNoFail] at h
    exact h.1.symm

/-- Witness for C6's conditional parts at a one-row table. -/
theorem router_update_on_post_witness :
    update_todo dbNoFail ⟨[⟨1, "x", "y"⟩], 2⟩ 1 ⟨"A", "B"⟩ =
      .ok (.OK, ⟨1, "A", "B"⟩, ⟨[⟨1, "A", "B"⟩], 2⟩) ∧
    (Status.OK = Status.OK ∧
      Db.selectById ⟨[⟨1, "A", "B"⟩], 2⟩ 1 = some ⟨1, "A", "B"⟩) :=
  ⟨rfl, router_update_on_post.2.2.2.2.2.1 ⟨[⟨1, "x", "y"⟩], 2⟩ 1 ⟨"A", "B"⟩
    .OK ⟨1, "A", "B"⟩ ⟨[⟨1, "A", "B"⟩], 2⟩ rfl⟩

/-- Iterated create yields one record per input. -/
lemma createMany_length (ns : List NewTodo) :
    ∀ db : Db, (createMany db ns).1.length = ns.length := by
  induction ns with
  | nil => intro db; rfl
  | cons n ns ih =>
    intro db
    show ((db.insertReturning n).1 ::
      (createMany (db.insertReturning n).2 ns).1).length = ns.length + 1
    simp [ih]

/-- Iterated create appends exactly the created records to the table. -/
lemma createMany_rows (ns : List NewTodo) :
    ∀ db : Db, (createMany db ns).2.rows = db.rows ++ (createMany db ns).1 := by
  induction ns with
  | nil => intro db; simp [createMany]
  | cons n ns ih =>
    intro db
    show (createMany (db.insertReturning n).2 ns).2.rows =
      db.rows ++ ((db.insertReturning n).1 ::
        (createMany (db.insertReturning n).2 ns).1)
    rw [ih]
    simp [Db.insertReturning]

/-- Every record created by iterated create has an id at or above the serial
counter it started from. -/
lemma createMany_id_lb (ns : List NewTodo) :
    ∀ (db : Db) (t : Todo), t ∈ (createMany db ns).1 → db.nextId ≤ t.id := by
  induction ns with
  | nil => intro db t ht; simp [createMany] at ht
  | cons n ns ih =>
    intro db t ht
    rcases List.mem_cons.mp ht with rfl | htr
    · exact le_refl _
    · have h1 : db.nextId + 1 ≤ t.id := ih (db.insertReturning n).2 t htr
      omega

/-- Records created by iterated create carry pairwise distinct ids. -/
lemma createMany_ids_nodup (ns : List NewTodo) :
    ∀ db : Db, ((createMany db ns).1.map Todo.id).Nodup := by
  induction ns with
  | nil => intro db; simp [createMany]
  | cons n ns ih =>
    intro db
    show (((db.insertReturning n).1 ::
      (createMany (db.insertReturning n).2 ns).1).map Todo.id).Nodup
    rw [List.map_cons, List.nodup_cons]
    constructor
    · intro hmem
      rw [List.mem_map] at hmem
      obtain ⟨t, ht, hid⟩ := hmem
      have h1 : db.nextId + 1 ≤ t.id := createMany_id_lb ns _ t ht
      have h2 : t.id = db.nextId := hid
      omega
    · exact ih _

/-- C9: starting from an empty table, after N creates and no deletes,
ListAll answers 200 with exactly the N created records, whose ids are
pairwise distinct — so each listed record matches exactly one created
record by id. -/
theorem list_completeness_after_creates (s : Int) (ns : List NewTodo) :
    get_todos dbNoFail (createMany ⟨[], s⟩ ns).2 =
      .ok (.OK, (createMany ⟨[], s⟩ ns).1) ∧
    (createMany ⟨[], s⟩ ns).1.length = ns.length ∧
    ((createMany ⟨[], s⟩ ns).1.map Todo.id).Nodup := by
  refine ⟨?_, createMany_length ns _, createMany_ids_nodup ns _⟩
  have hr := createMany_rows ns ⟨[], s⟩
  simp [get_todos, dbNoFail, Db.selectAll]
  simpa using hr

/-- C10: each handler that returns a response at all returns exactly its
route's fixed success status (201 create, 200 list/get/update, 204 delete);
a connection-acquisition or query error never yields a response but ends in
the unwrap panic carrying the mapped INTERNAL_SERVER_ERROR value. -/
theorem handlers_panic_not_error_response :
    (∀ fail db n out, create_todo fail db n = .ok out → out.1 = .CREATED) ∧
    (∀ fail db out, get_todos fail db = .ok out → out.1 = .OK) ∧
    (∀ fail db i out, get_todo fail db i = .ok out → out.1 = .OK) ∧
    (∀ fail db i u out, update_todo fail db i u = .ok out → out.1 = .OK) ∧
    (∀ fail db i out, delete_todo fail db i = .ok out → out.1 = .NO_CONTENT) ∧
    (∀ (fail : DbFailure) db n i u,
      fail.connErr = true ∨ fail.queryErr = true →
      create_todo fail db n = .error (.panicked .INTERNAL_SERVER_ERROR) ∧
      get_todos fail db = .error (.panicked .INTERNAL_SERVER_ERROR) ∧
      get_todo fail db i = .error (.panicked .INTERNAL_SERVER_ERROR) ∧
      update_todo fail db i u = .error (.panicked .INTERNAL_SERVER_ERROR) ∧
      delete_todo fail db i = .error (.panicked .INTERNAL_SERVER_ERROR)) := by
  refine ⟨?_, ?_, ?_, ?_, ?_, ?_⟩
  · intro fail db n out h
    obtain ⟨c, q⟩ := fail
    cases c <;> cases q <;> simp [create_todo] at h
    rw [← h]
  · intro fail db out h
    obtain ⟨c, q⟩ := fail
    cases c <;> cases q <;> simp [get_todos] at h
    rw [← h]
  · intro fail db i out h
    obtain ⟨c, q⟩ := fail
    cases c <;> cases q <;> simp [get_todo] at h
    cases hsel : Db.selectById db i <;> rw [hsel] at h <;> simp at h
    rw [← h]
  · intro fail db i u out h
    obtain ⟨c, q⟩ := fail
    cases c <;> cases q <;> simp [update_todo] at h
    cases hsel : Db.selectById (db.updateRows i u) i <;> rw [hsel] at h <;>
      simp at h
    rw [← h]
  · intro fail db i out h
    obtain ⟨c, q⟩ := fail
    cases c <;> cases q <;> simp [delete_todo] at h
    rw [← h]
  · intro fail db n i u hor
    obtain ⟨c, q⟩ := fail
    cases c
    · cases q
      · simp at hor
      · exact ⟨rfl, rfl, rfl, rfl, rfl⟩
    · exact ⟨rfl, rfl, rfl, rfl, rfl⟩

/-- Witness for C10: a concrete successful create carries 201, and a
concrete pool-acquisition failure ends in the panic, not a response. -/
theorem handlers_panic_not_error_response_witness :
    create_todo dbNoFail ⟨[], 1⟩ ⟨"a", "b"⟩ =
      .ok (.CREATED, ⟨1, "a", "b"⟩, ⟨[⟨1, "a", "b"⟩], 2⟩) ∧
    (Status.CREATED, (⟨1, "a", "b"⟩ : Todo),
      (⟨[⟨1, "a", "b"⟩], 2⟩ : Db)).1 = Status.CREATED ∧
    get_todo ⟨true, false⟩ ⟨[], 1⟩ 1 =
      .error (.panicked .INTERNAL_SERVER_ERROR) :=
  ⟨rfl,
   handlers_panic_not_error_response.1 dbNoFail ⟨[], 1⟩ ⟨"a", "b"⟩ _ rfl,
   (handlers_panic_not_error_response.2.2.2.2.2 ⟨true, false⟩ ⟨[], 1⟩
     ⟨"a", "b"⟩ 1 ⟨"A", "B"⟩ (Or.inl rfl)).2.2.1⟩
